import Mathlib

/-!
Verification of the C1DO1 WhatsApp escalation coordinator
(`whatsapp_simple_integration.py` and related agent modules).

The coordinator's mutable module-level dictionaries
(`conversation_histories`, `pending_human_queries`, `original_questions`)
are embedded as association lists with Python-dict semantics
(`alookup` / `aupdate` / `aerase`); external effects (agent-ladder
invocation, WhatsApp delivery, semantic-store writes, Notion ticket
creation) are embedded as oracle parameters plus an explicit `Effects`
record of the calls the coordinator performs.  Console/log output is
modelled only in the reconciliation routine, where the specification
refers to it.
-/

/-! ### Association lists with Python-dict semantics -/

def alookup {β : Type} : List (String × β) → String → Option β
  | [], _ => none
  | (k, v) :: t, key => if k = key then some v else alookup t key

/-- Python `d[k] = v`: replace in place if the key exists, else append. -/
def aupdate {β : Type} : List (String × β) → String → β → List (String × β)
  | [], key, val => [(key, val)]
  | (k, v) :: t, key, val =>
      if k = key then (k, val) :: t else (k, v) :: aupdate t key val

/-- Python `del d[k]` (removes the entry for `k`, if any). -/
def aerase {β : Type} : List (String × β) → String → List (String × β)
  | [], _ => []
  | (k, v) :: t, key => if k = key then t else (k, v) :: aerase t key

theorem keys_aupdate {β : Type} (l : List (String × β)) (k : String) (v : β) :
    (aupdate l k v).map Prod.fst =
      if k ∈ l.map Prod.fst then l.map Prod.fst else l.map Prod.fst ++ [k] := by
  induction l with
  | nil => simp [aupdate]
  | cons a t ih =>
      obtain ⟨ak, av⟩ := a
      by_cases hk : ak = k
      · simp [aupdate, hk]
      · have hk2 : k ≠ ak := fun e => hk e.symm
        simp [aupdate, hk, hk2, ih]
        split <;> rename_i hmem <;> simp [hmem, hk2]

theorem nodup_keys_aupdate {β : Type} (l : List (String × β)) (k : String) (v : β)
    (h : (l.map Prod.fst).Nodup) : ((aupdate l k v).map Prod.fst).Nodup := by
  rw [keys_aupdate]
  split
  · exact h
  · rename_i hk
    simp [List.nodup_append, h, hk]

theorem keys_aerase {β : Type} (l : List (String × β)) (k : String) :
    (aerase l k).map Prod.fst = (l.map Prod.fst).erase k := by
  induction l with
  | nil => simp [aerase]
  | cons a t ih =>
      obtain ⟨ak, av⟩ := a
      by_cases hk : ak = k
      · simp [aerase, hk, List.erase_cons_head]
      · simp [aerase, hk, ih, List.erase_cons_tail]

theorem nodup_keys_aerase {β : Type} (l : List (String × β)) (k : String)
    (h : (l.map Prod.fst).Nodup) : ((aerase l k).map Prod.fst).Nodup := by
  rw [keys_aerase]
  exact h.erase k

theorem alookup_eq_none_iff {β : Type} (l : List (String × β)) (key : String) :
    alookup l key = none ↔ key ∉ l.map Prod.fst := by
  induction l with
  | nil => simp [alookup]
  | cons a t ih =>
      obtain ⟨ak, av⟩ := a
      by_cases hk : ak = key
      · simp [alookup, hk]
      · have hk2 : key ≠ ak := fun e => hk e.symm
        simp [alookup, hk, hk2, ih]

theorem alookup_aerase_self {β : Type} (l : List (String × β)) (k : String)
    (h : (l.map Prod.fst).Nodup) : alookup (aerase l k) k = none := by
  rw [alookup_eq_none_iff, keys_aerase]
  intro hmem
  exact absurd ((h.mem_erase_iff).mp hmem).1 (by simp)

theorem alookup_aupdate_self {β : Type} (l : List (String × β)) (k : String) (v : β) :
    alookup (aupdate l k v) k = some v := by
  induction l with
  | nil => simp [aupdate, alookup]
  | cons a t ih =>
      obtain ⟨ak, av⟩ := a
      by_cases hk : ak = k
      · simp [aupdate, alookup, hk]
      · simp [aupdate, alookup, hk]
        exact ih

/-! ### Coordinator data model (whatsapp_simple_integration.py) -/

/-- One entry of `pending_human_queries`: `{'question': ..., 'timestamp': ...}`. -/
structure PendingQuery where
  question : String
  timestamp : String
deriving DecidableEq, Repr

/-- The coordinator's module-level mutable state:
`conversation_histories`, `pending_human_queries`, `original_questions`. -/
structure CoordState where
  conversations : List (String × List (String × String))
  pending : List (String × PendingQuery)
  originalQuestions : List (String × String)
deriving DecidableEq, Repr

/-- Externally observable calls performed by one coordinator operation. -/
structure Effects where
  ladderCalls : Nat
  sends : List (String × String)
  stores : List (String × String × String)
  ticketAttempts : List (String × String)
  logs : List String
deriving DecidableEq, Repr

def noEffects : Effects :=
  { ladderCalls := 0, sends := [], stores := [], ticketAttempts := [], logs := [] }

/-- Result of one agent-ladder run (`Runner.run`), as consumed by the
coordinator: the name of the agent that produced the final output, and that
output.  The ladder itself is an external oracle. -/
structure LadderResult where
  lastAgent : String
  finalOutput : String
deriving DecidableEq, Repr

/-- Outcome of a `store_support_answer` call: `(True, msg)`, `(False, msg)`,
or an exception. -/
inductive StoreOutcome where
  | ok (msg : String)
  | fail (msg : String)
  | raised (msg : String)
deriving DecidableEq, Repr

/-- `human_support_agent.name` (agent "Keisy"). -/
def humanAgentName : String := "Keisy - Especialista Humano"

/-- Acknowledgment sent to a user who messages while already pending. -/
def stillWaitingMsg : String :=
  "Tu consulta ha sido transferida a un especialista humano. En breve recibirás una respuesta. Gracias por tu paciencia."

/-- Message sent to the user when Notion ticket creation fails. -/
def ticketFailMsg : String :=
  "Tu consulta requiere asistencia especializada. Un humano revisará tu caso y te responderá lo antes posible. Gracias por tu paciencia."

/-- Source label used for QA pairs stored from the Notion webhook path. -/
def notionSource : String := "Soporte Humano - Notion"

/-- `process_message_with_agents`: handles one inbound WhatsApp message.
`ladder` is the (external) agent-ladder outcome used when the ladder runs;
`ticketResult` is the (external) outcome of `create_notion_ticket`.
Console/log output of this function is not modelled. -/
def process_message_with_agents (st : CoordState) (fromNumber text ts : String)
    (ladder : LadderResult) (ticketResult : Option String) : CoordState × Effects :=
  match alookup st.pending fromNumber with
  | some _ =>
      -- CASO 2: user already awaiting a human answer: acknowledge, return.
      (st, { noEffects with sends := [(fromNumber, stillWaitingMsg)] })
  | none =>
      -- CASO 3: run the agent ladder (exactly one Runner.run invocation).
      if ladder.lastAgent = humanAgentName then
        let st2 : CoordState :=
          { conversations := st.conversations
            pending := aupdate st.pending fromNumber ⟨text, ts⟩
            originalQuestions := aupdate st.originalQuestions fromNumber text }
        match ticketResult with
        | some _ =>
            -- Ticket created: nothing is sent to the user on this path.
            (st2, { noEffects with ladderCalls := 1, ticketAttempts := [(fromNumber, text)] })
        | none =>
            (st2, { noEffects with
                    ladderCalls := 1
                    sends := [(fromNumber, ticketFailMsg)]
                    ticketAttempts := [(fromNumber, text)] })
      else
        let response := ladder.finalOutput
        ({ conversations :=
             aupdate st.conversations fromNumber
               ((alookup st.conversations fromNumber).getD [] ++ [(text, response)])
           pending := st.pending
           originalQuestions := st.originalQuestions },
         { noEffects with ladderCalls := 1, sends := [(fromNumber, response)] })

/-- `process_notion_response`: reconciles a human answer arriving from the
Notion webhook with the pending query for `telefono`.  `storeOutcome` is the
(external) result of the `store_support_answer` call, `sendOk` the boolean
result of `send_whatsapp_response`. -/
def process_notion_response (st : CoordState) (telefono pregunta respuesta : String)
    (storeOutcome : StoreOutcome) (sendOk : Bool) : CoordState × Effects :=
  match alookup st.pending telefono with
  | some pq =>
      -- Empty caller question falls back to the pending record's question.
      let q := if pregunta = "" then pq.question else pregunta
      let storeLog :=
        match storeOutcome with
        | .ok m => "✅ " ++ m
        | .fail m => "⚠️ " ++ m
        | .raised m => "Error al almacenar respuesta: " ++ m
      if sendOk then
        ({ conversations :=
             aupdate st.conversations telefono
               ((alookup st.conversations telefono).getD [] ++ [(q, respuesta)])
           pending := aerase st.pending telefono
           originalQuestions := aerase st.originalQuestions telefono },
         { noEffects with
           sends := [(telefono, respuesta)]
           stores := [(q, respuesta, notionSource)]
           logs := [storeLog] })
      else
        (st,
         { noEffects with
           sends := [(telefono, respuesta)]
           stores := [(q, respuesta, notionSource)]
           logs := [storeLog, "Error al enviar respuesta de Notion a " ++ telefono] })
  | none =>
      (st, { noEffects with
             logs := ["Recibida respuesta para número no pendiente: " ++ telefono] })

/-! ### Notion webhook payload model (process_notion_webhook)

A Notion property value as accessed by the handler: a `rich_text` field
(list of `text.content` strings), a `title` field, or anything else.
The payload body may carry the properties under `data.properties` or
directly under `properties`; `data.id` is the page id.  The model is
faithful for payloads whose leaf strings contain no double quotes,
backslashes or embedded property-name markers, which is what the raw
JSON regex fallbacks of the handler assume as well. -/

inductive JField where
  | richText (contents : List String)
  | title (contents : List String)
  | other
deriving DecidableEq, Repr

structure NotionBody where
  hasData : Bool
  dataProperties : List (String × JField)
  dataId : Option String
  topProperties : List (String × JField)
deriving DecidableEq, Repr

/-- `properties = body.get('data', {}).get('properties', {}) or body.get('properties', {})`. -/
def selectedProperties (b : NotionBody) : List (String × JField) :=
  if b.hasData ∧ b.dataProperties ≠ [] then b.dataProperties else b.topProperties

/-- First `rich_text[0].text.content` of a field, `""` when absent/empty. -/
def fieldRichTextFirst : Option JField → String
  | some (.richText (c :: _)) => c
  | _ => ""

/-- The ordered variants tried for the legacy phone field (the source list
contains `"Teléfono"`, i.e. `"Teléfono"`, twice). -/
def telefonoVariants : List String :=
  ["Teléfono", "Telefono", "teléfono", "telefono", "Teléfono"]

/-- Step 1: the primary `Celular` field. -/
def phoneFromCelular (props : List (String × JField)) : String :=
  fieldRichTextFirst (alookup props ("Celular"))

/-- Step 2: the first phone-field variant that is present with a nonempty
`rich_text` (its content is taken even if empty). -/
def phoneFromVariants (props : List (String × JField)) : String :=
  (telefonoVariants.findSome? fun v =>
    match alookup props v with
    | some (.richText (c :: _)) => some c
    | _ => none).getD ""

/-- `len(content) > 8 and all(c.isdigit() or c == '+' for c in content)`
(with `content` nonempty). -/
def phoneLike (c : String) : Bool :=
  c ≠ "" && c.length > 8 && c.toList.all (fun ch => ch.isDigit || ch == '+')

/-- Step 3: scan all properties for a `rich_text` content that looks like a
phone number. -/
def phoneFromScan (props : List (String × JField)) : String :=
  (props.findSome? fun p =>
    match p.2 with
    | .richText (c :: _) => if phoneLike c then some c else none
    | _ => none).getD ""

/-- Every `text.content` string of a field (all `rich_text`/`title` items),
as serialized by `json.dumps`. -/
def fieldContents : JField → List String
  | .richText cs => cs
  | .title cs => cs
  | .other => []

/-- All `"content": "..."` string values of the dumped body, in
serialization order (`data.properties` first, then top-level `properties`). -/
def allContents (b : NotionBody) : List String :=
  (b.dataProperties.flatMap fun p => fieldContents p.2) ++
    (b.topProperties.flatMap fun p => fieldContents p.2)

/-- Regex `"content"\s*:\s*"(5\d{10})"`: the whole content is `5` plus ten
more digits. -/
def chileanPattern (c : String) : Bool :=
  c.length == 11 && c.toList.all Char.isDigit && c.startsWith ("5")

/-- Regex `"content"\s*:\s*"(\+?\d{8,15})"`: the whole content is an
optional `+` followed by 8 to 15 digits. -/
def anyPhonePattern (c : String) : Bool :=
  let ds := if c.startsWith ("+") then c.drop 1 else c
  ds ≠ "" && 8 ≤ ds.length && ds.length ≤ 15 && ds.toList.all Char.isDigit

/-- Step 4: regex scan over the raw JSON dump (Chilean pattern first). -/
def phoneFromRegex (b : NotionBody) : String :=
  match (allContents b).find? chileanPattern with
  | some c => c
  | none => ((allContents b).find? anyPhonePattern).getD ""

/-- The `Respuesta` field (`rich_text`). -/
def respuestaFromField (props : List (String × JField)) : String :=
  fieldRichTextFirst (alookup props ("Respuesta"))

/-- Answer fallback, regex `"content"\s*:\s*"([^"]{2,100})"` over the raw
dump: the first content string of length 2..100.  (The source assigns the
match to `respuesta` unconditionally; its id/digits check only gates a
debug print.) -/
def respuestaFromRegex (b : NotionBody) : String :=
  ((allContents b).find? fun c => 2 ≤ c.length && c.length ≤ 100).getD ""

/-- The `Pregunta` field (`title`). -/
def preguntaFromField (props : List (String × JField)) : String :=
  match alookup props ("Pregunta") with
  | some (.title (c :: _)) => c
  | _ => ""

/-- Shared secret expected in the `X-Notion-Secret` header. -/
def notionSecret : String := "soporte123"

def phone400 : String := "No se pudo identificar el número de teléfono"

def answer400 : String := "No se encontró la respuesta en el webhook"

inductive WebhookResult where
  | forbidden
  | badRequest (reason : String)
  | ok
deriving DecidableEq, Repr

/-- The handler's successive phone-number reassignments (`telefono = ...`,
each guarded by `if not telefono`), including the final single-pending
heuristic (which additionally requires the payload to carry `data.id`). -/
def webhookTelefono (b : NotionBody) (pending : List (String × PendingQuery)) : String :=
  let props := selectedProperties b
  let tel1 := phoneFromCelular props
  let tel2 := if tel1 = "" then phoneFromVariants props else tel1
  let tel3 := if tel2 = "" then phoneFromScan props else tel2
  let tel4 := if tel3 = "" then phoneFromRegex b else tel3
  if tel4 = "" then
    if b.hasData && b.dataId.isSome && pending.length == 1 then
      (pending.map Prod.fst).headD ""
    else ""
  else tel4

/-- The handler's answer extraction: the `Respuesta` field, then the raw
JSON content regex. -/
def webhookRespuesta (b : NotionBody) : String :=
  let r0 := respuestaFromField (selectedProperties b)
  if r0 = "" then respuestaFromRegex b else r0

/-- `process_notion_webhook`: full handler for the Notion ticketing webhook.
`secretHeader` is the `X-Notion-Secret` request header; `storeOutcome` and
`sendOk` are the oracles passed through to `process_notion_response`. -/
def process_notion_webhook (st : CoordState) (secretHeader : Option String)
    (b : NotionBody) (storeOutcome : StoreOutcome) (sendOk : Bool) :
    CoordState × Effects × WebhookResult :=
  if secretHeader ≠ some notionSecret then (st, noEffects, .forbidden)
  else
    let telefono := webhookTelefono b st.pending
    let respuesta := webhookRespuesta b
    if telefono = "" then (st, noEffects, .badRequest phone400)
    else if respuesta = "" then (st, noEffects, .badRequest answer400)
    else
      let r := process_notion_response st telefono (preguntaFromField (selectedProperties b))
                 respuesta storeOutcome sendOk
      (r.1, r.2, .ok)

/-- First nonempty string of a list, `""` if none. -/
def firstNonempty : List String → String
  | [] => ""
  | s :: t => if s = "" then firstNonempty t else s

/-- Modelled from the spec: the ordered identity-resolution fallback chain of
§4.3 — primary field name, known alternate names, pattern-based scan of all
text fields, pattern match over the raw payload, then (only when exactly one
pending query exists system-wide, and the payload carries a page id) the
single pending user. -/
def identityFallbackChain (b : NotionBody) (pending : List (String × PendingQuery)) : String :=
  firstNonempty
    [phoneFromCelular (selectedProperties b),
     phoneFromVariants (selectedProperties b),
     phoneFromScan (selectedProperties b),
     phoneFromRegex b,
     if b.hasData && b.dataId.isSome && pending.length == 1 then
       (pending.map Prod.fst).headD ""
     else ""]

/-- Modelled from the spec (amended): the answer is taken from the answer
field, falling back to a content pattern over the raw payload. -/
def answerFallbackChain (b : NotionBody) : String :=
  firstNonempty [respuestaFromField (selectedProperties b), respuestaFromRegex b]

/-! ### Keyword-based escalation variant
(c1do1_agents/complex_response_agent.py, process_complex_query) -/

/-- A single-quote character, built explicitly so the phrase lists can be
written without literal apostrophes. -/
def apo : String := String.mk [Char.ofNat 39]

/-- Python `str.lower()` restricted to the characters occurring in the
indicator phrases and responses considered here (ASCII letters plus the
uppercase Spanish accented letters). -/
def lowerChar (c : Char) : Char :=
  if c = 'Á' then 'á'
  else if c = 'É' then 'é'
  else if c = 'Í' then 'í'
  else if c = 'Ó' then 'ó'
  else if c = 'Ú' then 'ú'
  else if c = 'Ñ' then 'ñ'
  else if c = 'Ü' then 'ü'
  else c.toLower

def pyLower (s : String) : String := String.mk (s.toList.map lowerChar)

/-- Python substring test `pat in s` on character lists. -/
def containsSub : List Char → List Char → Bool
  | pat, [] => pat.isEmpty
  | pat, s@(_ :: t) => pat.isPrefixOf s || containsSub pat t

/-- `indicator.lower() in response.lower()`. -/
def containsLower (response ind : String) : Bool :=
  containsSub (pyLower ind).toList (pyLower response).toList

def human_help_indicators : List String :=
  ["transfer you to a human",
   "human specialist",
   "don" ++ apo ++ "t have enough information",
   "don" ++ apo ++ "t have the specific information",
   "cannot find information",
   "couldn" ++ apo ++ "t find",
   "don" ++ apo ++ "t have specific",
   "don" ++ apo ++ "t have details",
   "not found specific",
   "unable to find",
   "no specific information",
   "no tengo suficiente información",
   "no tengo la información específica",
   "no tengo información específica",
   "no puedo encontrar",
   "no he encontrado",
   "no encontré información específica",
   "no encontré",
   "transferirte a un especialista humano",
   "transferirte a un humano",
   "especialista humano",
   "no tengo la información",
   "no dispongo de información",
   "no encuentro información",
   "sin información específica",
   "no hay información específica"]

def lack_info_indicators : List String :=
  ["parece que no encontré",
   "no he podido encontrar",
   "no pude encontrar",
   "it seems I couldn" ++ apo ++ "t find",
   "I haven" ++ apo ++ "t been able to find",
   "I wasn" ++ apo ++ "t able to find",
   "I could not find"]

def esTransferMsg : String :=
  "Lo siento, no tengo la información específica para responder a tu pregunta. Voy a transferirte a un especialista humano que podrá ayudarte mejor."

def enTransferMsg : String :=
  "I apologize, but I don" ++ apo ++
    "t have the specific information to answer your question accurately. Let me transfer you to a human specialist who can assist you better."

def needsHumanRaw (r : String) : Bool :=
  (human_help_indicators ++ lack_info_indicators).any fun ind => containsLower r ind

def lackMatch (r : String) : Bool :=
  lack_info_indicators.any fun ind => containsLower r ind

def humanMatch (r : String) : Bool :=
  human_help_indicators.any fun ind => containsLower r ind

/-- `"spanish" in response.lower() or any(w in response.lower() for w in
["gracias", "ayuda", "información", "específica"])`. -/
def spanishHeuristic (r : String) : Bool :=
  containsSub ("spanish").toList (pyLower r).toList ||
    (["gracias", "ayuda", "información", "específica"].any fun w =>
      containsSub w.toList (pyLower r).toList)

/-- The pure post-processing of `process_complex_query` applied to the
agent's response text: the keyword-based escalation decision and the
lack-of-information rewrite. -/
def process_complex_query_post (response : String) : String × Bool :=
  let needs := needsHumanRaw response
  if lackMatch response && !humanMatch response then
    (if spanishHeuristic response then esTransferMsg else enTransferMsg, true)
  else (response, needs)

/-! ### WhatsApp webhook GET verification (verify_webhook) -/

def defaultVerifyToken : String := "c1d01-whatsapp-verify"

/-- `verify_webhook`: `envToken` is `WHATSAPP_VERIFY_TOKEN` (None when
unset); `mode`, `token`, `challenge` are the `hub.*` query parameters.
Returns (HTTP status, response body; `none` models `text=None`). -/
def verify_webhook (envToken mode token challenge : Option String) :
    Nat × Option String :=
  let verifyToken := envToken.getD defaultVerifyToken
  if mode = some ("subscribe") ∧ token = some verifyToken then (200, challenge)
  else (403, some ("Forbidden"))

/-- The GET handler touches none of the coordinator dictionaries; the
handler-level wrapper makes that explicit. -/
def verify_webhook_handler (st : CoordState)
    (envToken mode token challenge : Option String) :
    CoordState × (Nat × Option String) :=
  (st, verify_webhook envToken mode token challenge)

/-! ### Claim theorems -/

/-- C1: for every user whose identity has an entry in the pending map,
handling an inbound message performs zero agent-ladder invocations, sends
exactly one acknowledgment message to that user, and leaves the
conversation history and pending maps unchanged. -/
theorem pending_gate_acknowledges_without_ladder
    (st : CoordState) (f t ts : String) (ld : LadderResult) (tk : Option String)
    (pq : PendingQuery) (h : alookup st.pending f = some pq) :
    process_message_with_agents st f t ts ld tk =
      (st, { noEffects with sends := [(f, stillWaitingMsg)] }) := by
  simp [process_message_with_agents, h]

theorem pending_gate_acknowledges_without_ladder_witness :
    alookup (⟨[], [(("u1"), ⟨("q"), ("t0")⟩)], []⟩ : CoordState).pending ("u1") =
      some ⟨("q"), ("t0")⟩ ∧
    process_message_with_agents ⟨[], [(("u1"), ⟨("q"), ("t0")⟩)], []⟩ ("u1") ("hola") ("t1")
        ⟨("X"), ("o")⟩ none =
      (⟨[], [(("u1"), ⟨("q"), ("t0")⟩)], []⟩,
       { noEffects with sends := [(("u1"), stillWaitingMsg)] }) :=
  ⟨by decide,
   pending_gate_acknowledges_without_ladder _ _ _ _ _ _ ⟨("q"), ("t0")⟩ (by decide)⟩

theorem nodup_pending_process_message
    (st : CoordState) (f t ts : String) (ld : LadderResult) (tk : Option String)
    (h : (st.pending.map Prod.fst).Nodup) :
    (((process_message_with_agents st f t ts ld tk).1.pending.map Prod.fst)).Nodup := by
  unfold process_message_with_agents
  cases halk : alookup st.pending f with
  | some pq => simpa using h
  | none =>
      by_cases hl : ld.lastAgent = humanAgentName
      · cases tk <;> simp [hl] <;> exact nodup_keys_aupdate _ _ _ h
      · simpa [hl] using h

theorem nodup_pending_process_notion_response
    (st : CoordState) (u p a : String) (o : StoreOutcome) (s : Bool)
    (h : (st.pending.map Prod.fst).Nodup) :
    (((process_notion_response st u p a o s).1.pending.map Prod.fst)).Nodup := by
  unfold process_notion_response
  cases halk : alookup st.pending u with
  | none => simpa using h
  | some pq =>
      cases s
      · simpa using h
      · simpa using nodup_keys_aerase _ _ h

theorem nodup_pending_process_notion_webhook
    (st : CoordState) (hd : Option String) (b : NotionBody)
    (o : StoreOutcome) (s : Bool)
    (h : (st.pending.map Prod.fst).Nodup) :
    (((process_notion_webhook st hd b o s).1.pending.map Prod.fst)).Nodup := by
  unfold process_notion_webhook
  by_cases h1 : hd ≠ some notionSecret
  · simpa [h1] using h
  · by_cases h2 : webhookTelefono b st.pending = ""
    · simpa [h1, h2] using h
    · by_cases h3 : webhookRespuesta b = ""
      · simpa [h1, h2, h3] using h
      · simpa [h1, h2, h3] using
          nodup_pending_process_notion_response st (webhookTelefono b st.pending)
            (preguntaFromField (selectedProperties b)) (webhookRespuesta b) o s h

/-- C2: every coordinator operation (inbound-message handling including
escalation, reconciliation, and the ticketing webhook that funnels into it)
preserves the invariant that the pending map holds at most one entry per
user identity. -/
theorem pending_map_at_most_one_entry_per_user
    (st : CoordState) (f t ts u p a : String) (ld : LadderResult)
    (tk hd : Option String) (b : NotionBody) (o : StoreOutcome) (s : Bool)
    (h : (st.pending.map Prod.fst).Nodup) :
    (((process_message_with_agents st f t ts ld tk).1.pending.map Prod.fst)).Nodup ∧
    (((process_notion_response st u p a o s).1.pending.map Prod.fst)).Nodup ∧
    (((process_notion_webhook st hd b o s).1.pending.map Prod.fst)).Nodup :=
  ⟨nodup_pending_process_message st f t ts ld tk h,
   nodup_pending_process_notion_response st u p a o s h,
   nodup_pending_process_notion_webhook st hd b o s h⟩

theorem pending_map_at_most_one_entry_per_user_witness :
    ((((⟨[], [(("u1"), ⟨("q"), ("t0")⟩)], []⟩ : CoordState).pending.map Prod.fst)).Nodup) ∧
    ((((process_message_with_agents ⟨[], [(("u1"), ⟨("q"), ("t0")⟩)], []⟩ ("u2") ("hola") ("t1")
        ⟨humanAgentName, ("o")⟩ none).1.pending.map Prod.fst)).Nodup) :=
  ⟨by decide,
   (pending_map_at_most_one_entry_per_user ⟨[], [(("u1"), ⟨("q"), ("t0")⟩)], []⟩
     ("u2") ("hola") ("t1") ("u1") ("p") ("a") ⟨humanAgentName, ("o")⟩ none none
     ⟨false, [], none, []⟩ (.ok ("m")) true (by decide)).1⟩

/-- C3 counterexample: with a pending record whose original question is
"orig", a reconciliation whose caller supplies the non-empty question
"caller" stores and appends the caller-supplied question, not the pending
record's original question — refuting the claim that the stored question is
always retrieved from the pending record and never from the caller. -/
theorem reconcile_question_from_caller_counterexample :
    (process_notion_response ⟨[], [(("u"), ⟨("orig"), ("t0")⟩)], []⟩ ("u") ("caller") ("ans")
        (.ok ("m")) true).2.stores = [(("caller"), ("ans"), notionSource)] ∧
    (process_notion_response ⟨[], [(("u"), ⟨("orig"), ("t0")⟩)], []⟩ ("u") ("caller") ("ans")
        (.ok ("m")) true).1.conversations = [(("u"), [(("caller"), ("ans"))])] ∧
    (("caller") : String) ≠ ("orig") := by
  decide

/-- C3 amended: for every reconciliation of an existing pending record, the
question stored in the semantic store and appended to conversation history
is the caller-supplied question when that is non-empty; the original
question from the pending record is used only as a fallback when the caller
supplies an empty question. -/
theorem reconcile_question_source
    (st : CoordState) (u p a : String) (o : StoreOutcome) (s : Bool)
    (pq : PendingQuery) (h : alookup st.pending u = some pq) :
    (process_notion_response st u p a o s).2.stores =
      [((if p = "" then pq.question else p), a, notionSource)] ∧
    (s = true →
      (process_notion_response st u p a o s).1.conversations =
        aupdate st.conversations u
          ((alookup st.conversations u).getD [] ++
            [((if p = "" then pq.question else p), a)])) := by
  cases s <;> simp [process_notion_response, h]

theorem reconcile_question_source_witness :
    alookup ([(("u"), (⟨("orig"), ("t0")⟩ : PendingQuery))]) ("u") = some ⟨("orig"), ("t0")⟩ ∧
    (process_notion_response ⟨[], [(("u"), ⟨("orig"), ("t0")⟩)], []⟩ ("u") ("") ("ans")
        (.ok ("m")) true).2.stores = [(("orig"), ("ans"), notionSource)] :=
  ⟨by decide, by
    have h := (reconcile_question_source ⟨[], [(("u"), ⟨("orig"), ("t0")⟩)], []⟩
      ("u") ("") ("ans") (.ok ("m")) true ⟨("orig"), ("t0")⟩ (by decide)).1
    simpa using h⟩

/-- C4: reconciliation is idempotent — a reconciliation for a user identity
with no pending record is a state-preserving no-op that only logs a warning,
and after a first successful reconciliation (which performs the store and
deliver side effects exactly once and clears the pending record) a second
call for the same user is such a no-op. -/
theorem reconcile_idempotent
    (st : CoordState) (u v p a : String) (o1 o2 : StoreOutcome) (s2 : Bool)
    (pq : PendingQuery)
    (hn : (st.pending.map Prod.fst).Nodup)
    (h : alookup st.pending u = some pq)
    (hv : alookup st.pending v = none) :
    process_notion_response st v p a o1 s2 =
      (st, { noEffects with
             logs := ["Recibida respuesta para número no pendiente: " ++ v] }) ∧
    (process_notion_response st u p a o1 true).2.stores.length = 1 ∧
    (process_notion_response st u p a o1 true).2.sends.length = 1 ∧
    alookup (process_notion_response st u p a o1 true).1.pending u = none ∧
    process_notion_response (process_notion_response st u p a o1 true).1 u p a o2 s2 =
      ((process_notion_response st u p a o1 true).1,
       { noEffects with
         logs := ["Recibida respuesta para número no pendiente: " ++ u] }) := by
  have hpend : (process_notion_response st u p a o1 true).1.pending = aerase st.pending u := by
    simp [process_notion_response, h]
  have hnone : alookup (process_notion_response st u p a o1 true).1.pending u = none := by
    rw [hpend]; exact alookup_aerase_self _ _ hn
  refine ⟨by simp [process_notion_response, hv], ?_, ?_, hnone, ?_⟩
  · simp [process_notion_response, h]
  · simp [process_notion_response, h]
  · generalize hg : (process_notion_response st u p a o1 true).1 = st1 at hnone ⊢
    simp [process_notion_response, hnone]

theorem reconcile_idempotent_witness :
    (((⟨[], [(("u"), ⟨("q"), ("t0")⟩)], []⟩ : CoordState).pending.map Prod.fst)).Nodup ∧
    alookup ([(("u"), (⟨("q"), ("t0")⟩ : PendingQuery))]) ("u") = some ⟨("q"), ("t0")⟩ ∧
    alookup ([(("u"), (⟨("q"), ("t0")⟩ : PendingQuery))]) ("w") = none ∧
    alookup (process_notion_response ⟨[], [(("u"), ⟨("q"), ("t0")⟩)], []⟩ ("u") ("") ("ans")
        (.ok ("m")) true).1.pending ("u") = none ∧
    process_notion_response
        (process_notion_response ⟨[], [(("u"), ⟨("q"), ("t0")⟩)], []⟩ ("u") ("") ("ans")
          (.ok ("m")) true).1 ("u") ("") ("ans") (.ok ("m2")) true =
      ((process_notion_response ⟨[], [(("u"), ⟨("q"), ("t0")⟩)], []⟩ ("u") ("") ("ans")
          (.ok ("m")) true).1,
       { noEffects with
         logs := ["Recibida respuesta para número no pendiente: " ++ ("u")] }) := by
  have h := reconcile_idempotent ⟨[], [(("u"), ⟨("q"), ("t0")⟩)], []⟩
    ("u") ("w") ("") ("ans") (.ok ("m")) (.ok ("m2")) true ⟨("q"), ("t0")⟩
    (by decide) (by decide) (by decide)
  exact ⟨by decide, by decide, by decide, h.2.2.2.1, h.2.2.2.2⟩

/-- C5 counterexample: when outbound delivery fails, reconciliation leaves
the coordinator state entirely unchanged — the pending record is not
deleted and no turn is appended to the conversation history — refuting the
claim that the append/delete transition happens regardless of delivery
success. -/
theorem reconcile_rollback_on_delivery_failure_counterexample :
    (process_notion_response ⟨[], [(("u"), ⟨("orig"), ("t0")⟩)], []⟩ ("u") ("") ("ans")
        (.ok ("m")) false).1 = ⟨[], [(("u"), ⟨("orig"), ("t0")⟩)], []⟩ ∧
    alookup (process_notion_response ⟨[], [(("u"), ⟨("orig"), ("t0")⟩)], []⟩ ("u") ("") ("ans")
        (.ok ("m")) false).1.pending ("u") = some ⟨("orig"), ("t0")⟩ ∧
    (process_notion_response ⟨[], [(("u"), ⟨("orig"), ("t0")⟩)], []⟩ ("u") ("") ("ans")
        (.ok ("m")) false).1.conversations = [] := by
  decide

/-- C5 amended: for every reconciliation of an existing pending query, the
turn is appended to conversation history and the pending record deleted
only when outbound delivery succeeds; on delivery failure the coordinator
state is left unchanged (the pending record remains), although the
semantic-store write has already been attempted. -/
theorem reconcile_transition_requires_delivery
    (st : CoordState) (u p a : String) (o : StoreOutcome)
    (pq : PendingQuery) (h : alookup st.pending u = some pq) :
    (process_notion_response st u p a o true).1.pending = aerase st.pending u ∧
    (process_notion_response st u p a o true).1.conversations =
      aupdate st.conversations u
        ((alookup st.conversations u).getD [] ++
          [((if p = "" then pq.question else p), a)]) ∧
    (process_notion_response st u p a o false).1 = st ∧
    (process_notion_response st u p a o false).2.stores =
      [((if p = "" then pq.question else p), a, notionSource)] := by
  refine ⟨?_, ?_, ?_, ?_⟩ <;> simp [process_notion_response, h]

theorem reconcile_transition_requires_delivery_witness :
    alookup ([(("u"), (⟨("orig"), ("t0")⟩ : PendingQuery))]) ("u") = some ⟨("orig"), ("t0")⟩ ∧
    (process_notion_response ⟨[], [(("u"), ⟨("orig"), ("t0")⟩)], []⟩ ("u") ("") ("ans")
        (.ok ("m")) true).1.pending = [] ∧
    (process_notion_response ⟨[], [(("u"), ⟨("orig"), ("t0")⟩)], []⟩ ("u") ("") ("ans")
        (.ok ("m")) false).1 = ⟨[], [(("u"), ⟨("orig"), ("t0")⟩)], []⟩ := by
  have h := reconcile_transition_requires_delivery ⟨[], [(("u"), ⟨("orig"), ("t0")⟩)], []⟩
    ("u") ("") ("ans") (.ok ("m")) ⟨("orig"), ("t0")⟩ (by decide)
  refine ⟨by decide, ?_, h.2.2.1⟩
  rw [h.1]
  decide

/-- C6 counterexample: when the ladder terminates at the human-handoff
agent and Notion ticket creation succeeds, the user is sent no interim
acknowledgment at all (the handler only prints to the operator console) —
refuting the claim that an acknowledgment is sent on escalation with a
distinct message reserved for the failure path. -/
theorem escalation_success_sends_no_ack_counterexample :
    (process_message_with_agents ⟨[], [], []⟩ ("u") ("preg") ("t1")
        ⟨humanAgentName, ("o")⟩ (some ("pid"))).2.sends = [] ∧
    alookup (process_message_with_agents ⟨[], [], []⟩ ("u") ("preg") ("t1")
        ⟨humanAgentName, ("o")⟩ (some ("pid"))).1.pending ("u") =
      some ⟨("preg"), ("t1")⟩ := by
  decide

/-- C6 amended: when the agent ladder terminates at the human-handoff agent
(for a user with no pending entry), the coordinator creates the pending
record and attempts ticket creation; an interim acknowledgment — the
queued-for-a-human message — is sent only when ticket creation fails, and a
creation failure does not block the user-facing flow: the pending record
exists in either case. -/
theorem escalation_creates_pending_and_ticket
    (st : CoordState) (f t ts : String) (ld : LadderResult) (tk : Option String)
    (h : alookup st.pending f = none) (hl : ld.lastAgent = humanAgentName) :
    alookup (process_message_with_agents st f t ts ld tk).1.pending f = some ⟨t, ts⟩ ∧
    (process_message_with_agents st f t ts ld tk).1.conversations = st.conversations ∧
    (process_message_with_agents st f t ts ld tk).2.ladderCalls = 1 ∧
    (process_message_with_agents st f t ts ld tk).2.ticketAttempts = [(f, t)] ∧
    (tk = none →
      (process_message_with_agents st f t ts ld tk).2.sends = [(f, ticketFailMsg)]) ∧
    (∀ pid, tk = some pid →
      (process_message_with_agents st f t ts ld tk).2.sends = []) := by
  cases tk <;>
    simp [process_message_with_agents, h, hl, alookup_aupdate_self, noEffects]

theorem escalation_creates_pending_and_ticket_witness :
    alookup (⟨[], [], []⟩ : CoordState).pending ("u") = none ∧
    (⟨humanAgentName, ("o")⟩ : LadderResult).lastAgent = humanAgentName ∧
    alookup (process_message_with_agents ⟨[], [], []⟩ ("u") ("preg") ("t1")
        ⟨humanAgentName, ("o")⟩ none).1.pending ("u") = some ⟨("preg"), ("t1")⟩ ∧
    (process_message_with_agents ⟨[], [], []⟩ ("u") ("preg") ("t1")
        ⟨humanAgentName, ("o")⟩ none).2.sends = [(("u"), ticketFailMsg)] := by
  have h := escalation_creates_pending_and_ticket ⟨[], [], []⟩ ("u") ("preg") ("t1")
    ⟨humanAgentName, ("o")⟩ none (by decide) (by decide)
  exact ⟨by decide, by decide, h.1, h.2.2.2.2.1 rfl⟩

/-- C8: the outcome of the semantic-store write has no influence on the
state transition, on the delivered answer, or on the recorded store
attempt of a reconciliation for an existing pending query; a store failure
or exception only changes what is logged, and the answer is still sent. -/
theorem storage_failure_does_not_block_reconciliation
    (st : CoordState) (u p a m : String) (o1 o2 : StoreOutcome) (s : Bool)
    (pq : PendingQuery) (h : alookup st.pending u = some pq) :
    (process_notion_response st u p a o1 s).1 = (process_notion_response st u p a o2 s).1 ∧
    (process_notion_response st u p a o1 s).2.sends = [(u, a)] ∧
    (process_notion_response st u p a o1 s).2.stores =
      (process_notion_response st u p a o2 s).2.stores ∧
    (process_notion_response st u p a (.fail m) s).2.logs.head? = some ("⚠️ " ++ m) ∧
    (process_notion_response st u p a (.raised m) s).2.logs.head? =
      some ("Error al almacenar respuesta: " ++ m) := by
  cases s <;> simp [process_notion_response, h]

theorem storage_failure_does_not_block_reconciliation_witness :
    alookup ([(("u"), (⟨("q"), ("t0")⟩ : PendingQuery))]) ("u") = some ⟨("q"), ("t0")⟩ ∧
    (process_notion_response ⟨[], [(("u"), ⟨("q"), ("t0")⟩)], []⟩ ("u") ("") ("ans")
        (.fail ("boom")) true).1 =
      (process_notion_response ⟨[], [(("u"), ⟨("q"), ("t0")⟩)], []⟩ ("u") ("") ("ans")
        (.ok ("m")) true).1 ∧
    (process_notion_response ⟨[], [(("u"), ⟨("q"), ("t0")⟩)], []⟩ ("u") ("") ("ans")
        (.fail ("boom")) true).2.sends = [(("u"), ("ans"))] := by
  have h := storage_failure_does_not_block_reconciliation
    ⟨[], [(("u"), ⟨("q"), ("t0")⟩)], []⟩ ("u") ("") ("ans") ("boom")
    (.fail ("boom")) (.ok ("m")) true ⟨("q"), ("t0")⟩ (by decide)
  exact ⟨by decide, h.1, h.2.1⟩

theorem if_empty_self (x : String) : (if x = "" then "" else x) = x := by
  split <;> simp_all

theorem webhookTelefono_eq_chain (b : NotionBody) (pending : List (String × PendingQuery)) :
    webhookTelefono b pending = identityFallbackChain b pending := by
  unfold webhookTelefono identityFallbackChain
  simp only [firstNonempty, if_empty_self]
  by_cases h1 : phoneFromCelular (selectedProperties b) = "" <;>
  by_cases h2 : phoneFromVariants (selectedProperties b) = "" <;>
  by_cases h3 : phoneFromScan (selectedProperties b) = "" <;>
  by_cases h4 : phoneFromRegex b = "" <;>
    simp [h1, h2, h3, h4]

theorem webhookRespuesta_eq_chain (b : NotionBody) :
    webhookRespuesta b = answerFallbackChain b := by
  unfold webhookRespuesta answerFallbackChain
  simp only [firstNonempty, if_empty_self]

/-- C7 counterexample: a payload carrying no `Respuesta` field at all (only
a `Celular` phone field) is not rejected with 400 — the handler recovers an
"answer" via the content regex over the raw payload (here, the phone number
itself) and responds OK — refuting the claim that a missing answer field
yields 400. -/
theorem notion_webhook_missing_answer_counterexample :
    alookup (⟨false, [], none, [(("Celular"), .richText [("123456789")])]⟩ : NotionBody).topProperties
        ("Respuesta") = none ∧
    (process_notion_webhook ⟨[], [], []⟩ (some notionSecret)
        ⟨false, [], none, [(("Celular"), .richText [("123456789")])]⟩ (.ok ("m")) true).2.2 =
      .ok := by
  decide

/-- C7 amended: the ticketing webhook responds 403 on a shared-secret
mismatch without touching state; otherwise it resolves the user identity by
the ordered fallback chain (primary field, alternate field names, digits
scan over all text fields, regex over the raw payload, then — only when the
payload carries a page id and exactly one pending query exists system-wide —
that single pending user) and the answer by its own two-step chain (answer
field, then content regex over the raw payload); it responds 400 without
mutating state when no identity or no answer can be resolved, and otherwise
funnels into the reconciliation routine. -/
theorem notion_webhook_fallback_chain
    (st : CoordState) (hd : Option String) (b : NotionBody)
    (o : StoreOutcome) (s : Bool) :
    webhookTelefono b st.pending = identityFallbackChain b st.pending ∧
    webhookRespuesta b = answerFallbackChain b ∧
    (hd ≠ some notionSecret →
      process_notion_webhook st hd b o s = (st, noEffects, .forbidden)) ∧
    (hd = some notionSecret →
      (identityFallbackChain b st.pending = "" →
        process_notion_webhook st hd b o s = (st, noEffects, .badRequest phone400)) ∧
      (identityFallbackChain b st.pending ≠ "" → answerFallbackChain b = "" →
        process_notion_webhook st hd b o s = (st, noEffects, .badRequest answer400)) ∧
      (identityFallbackChain b st.pending ≠ "" → answerFallbackChain b ≠ "" →
        process_notion_webhook st hd b o s =
          ((process_notion_response st (identityFallbackChain b st.pending)
              (preguntaFromField (selectedProperties b)) (answerFallbackChain b) o s).1,
           (process_notion_response st (identityFallbackChain b st.pending)
              (preguntaFromField (selectedProperties b)) (answerFallbackChain b) o s).2,
           .ok))) := by
  refine ⟨webhookTelefono_eq_chain b st.pending, webhookRespuesta_eq_chain b, ?_, ?_⟩
  · intro hne; simp [process_notion_webhook, hne]
  · intro he
    rw [← webhookTelefono_eq_chain, ← webhookRespuesta_eq_chain]
    refine ⟨?_, ?_, ?_⟩
    · intro h1; simp [process_notion_webhook, he, h1]
    · intro h1 h2; simp [process_notion_webhook, he, h1, h2]
    · intro h1 h2; simp [process_notion_webhook, he, h1, h2]

theorem notion_webhook_fallback_chain_witness :
    identityFallbackChain
        ⟨false, [], none,
         [(("Pregunta"), .title [("preg")]), (("Respuesta"), .richText [("resp")]),
          (("Celular"), .richText [("56911111111")])]⟩
        ([(("56911111111"), (⟨("orig"), ("t0")⟩ : PendingQuery))]) = ("56911111111") ∧
    answerFallbackChain
        ⟨false, [], none,
         [(("Pregunta"), .title [("preg")]), (("Respuesta"), .richText [("resp")]),
          (("Celular"), .richText [("56911111111")])]⟩ = ("resp") ∧
    process_notion_webhook ⟨[], [(("56911111111"), ⟨("orig"), ("t0")⟩)], []⟩
        (some notionSecret)
        ⟨false, [], none,
         [(("Pregunta"), .title [("preg")]), (("Respuesta"), .richText [("resp")]),
          (("Celular"), .richText [("56911111111")])]⟩ (.ok ("m")) true =
      (⟨[(("56911111111"), [(("preg"), ("resp"))])], [], []⟩,
       { noEffects with
         sends := [(("56911111111"), ("resp"))]
         stores := [(("preg"), ("resp"), notionSource)]
         logs := ["✅ m"] },
       .ok) := by
  have h := notion_webhook_fallback_chain
    ⟨[], [(("56911111111"), ⟨("orig"), ("t0")⟩)], []⟩ (some notionSecret)
    ⟨false, [], none,
     [(("Pregunta"), .title [("preg")]), (("Respuesta"), .richText [("resp")]),
      (("Celular"), .richText [("56911111111")])]⟩ (.ok ("m")) true
  refine ⟨by decide, by decide, ?_⟩
  exact ((h.2.2.2 rfl).2.2 (by decide) (by decide)).trans (by decide)

/-- C9: in the keyword-based escalation variant, the returned
`needs_human_help` flag is true exactly when the agent's response contains,
case-insensitively, at least one phrase from the human-help or
lack-of-information indicator lists; and whenever a lack-of-information
phrase matches while no human-help phrase does, the returned text is the
fixed standard transfer message (Spanish or English by the word heuristic)
instead of the agent's own text. -/
theorem needsHumanRaw_eq (r : String) :
    needsHumanRaw r = (humanMatch r || lackMatch r) := by
  simp [needsHumanRaw, humanMatch, lackMatch, List.any_append]

theorem keyword_escalation_decision (r : String) :
    ((process_complex_query_post r).2 = true ↔
      humanMatch r = true ∨ lackMatch r = true) ∧
    (lackMatch r = true → humanMatch r = false →
      (process_complex_query_post r).1 =
        (if spanishHeuristic r then esTransferMsg else enTransferMsg)) := by
  constructor
  · by_cases hcl : lackMatch r = true <;> by_cases hch : humanMatch r = true <;>
      simp [process_complex_query_post, needsHumanRaw_eq, hcl, hch]
  · intro hl hh
    simp [process_complex_query_post, hl, hh]

theorem keyword_escalation_decision_witness :
    lackMatch ("no pude encontrar eso") = true ∧
    humanMatch ("no pude encontrar eso") = false ∧
    (process_complex_query_post ("no pude encontrar eso")).1 =
      (if spanishHeuristic ("no pude encontrar eso") then esTransferMsg else enTransferMsg) ∧
    (process_complex_query_post ("no pude encontrar eso")).2 = true := by
  have h := keyword_escalation_decision ("no pude encontrar eso")
  refine ⟨by decide, by decide, h.2 (by decide) (by decide), ?_⟩
  exact h.1.mpr (Or.inr (by decide))

/-- C10: a GET verification request is answered with status 200 and a body
echoing the challenge parameter exactly when the mode parameter is
"subscribe" and the token parameter equals the configured verify token —
which defaults to the hard-coded "c1d01-whatsapp-verify" when the
environment variable is unset — every other request receives 403, and the
handler leaves the coordinator state untouched. -/
theorem verify_webhook_challenge_echo
    (st : CoordState) (env mode token challenge : Option String) :
    (((verify_webhook env mode token challenge).1 = 200 ∧
      (verify_webhook env mode token challenge).2 = challenge) ↔
      (mode = some ("subscribe") ∧ token = some (env.getD defaultVerifyToken))) ∧
    (¬(mode = some ("subscribe") ∧ token = some (env.getD defaultVerifyToken)) →
      verify_webhook env mode token challenge = (403, some ("Forbidden"))) ∧
    verify_webhook none (some ("subscribe")) (some ("c1d01-whatsapp-verify")) challenge =
      (200, challenge) ∧
    (verify_webhook_handler st env mode token challenge).1 = st := by
  refine ⟨?_, ?_, by simp [verify_webhook, defaultVerifyToken], rfl⟩
  · by_cases hc : mode = some ("subscribe") ∧ token = some (env.getD defaultVerifyToken) <;>
      simp [verify_webhook, hc]
  · intro hc
    simp [verify_webhook, hc]

theorem verify_webhook_challenge_echo_witness :
    verify_webhook none (some ("subscribe")) (some ("c1d01-whatsapp-verify")) (some ("CH")) =
      (200, some ("CH")) ∧
    verify_webhook none (some ("subscribe")) (some ("wrong")) (some ("CH")) =
      (403, some ("Forbidden")) := by
  have h1 := verify_webhook_challenge_echo ⟨[], [], []⟩ none (some ("subscribe"))
    (some ("c1d01-whatsapp-verify")) (some ("CH"))
  have h2 := verify_webhook_challenge_echo ⟨[], [], []⟩ none (some ("subscribe"))
    (some ("wrong")) (some ("CH"))
  exact ⟨h1.2.2.1, h2.2.1 (by decide)⟩
